import Mathlib

/- Verification of the two part cache middleware in djcachemid/middleware.py.
   Requests, responses and the key value backend are modelled as pure data.
   External Django utilities that this repository merely imports (the md5 hex
   digest, iri_to_uri, patch_response_headers, which consults the clock) are
   parameters of the embedding, bundled in the Ext structure; the utilities
   cc_delim_re and get_max_age from django.utils.cache are modelled concretely
   below because several claims depend on their observable behaviour. -/

/-- Python whitespace test matching the character class of the regex used by
    cc_delim_re: space, tab, newline, carriage return, vertical tab, form feed. -/
def pyIsSpace (c : Char) : Bool :=
  c.toNat = 32 ∨ c.toNat = 9 ∨ c.toNat = 10 ∨ c.toNat = 13 ∨ c.toNat = 11 ∨ c.toNat = 12

/-- Uppercase one ASCII character, as Python str.upper acts per character. -/
def pyUpperChar (c : Char) : Char :=
  if 97 ≤ c.toNat ∧ c.toNat ≤ 122 then Char.ofNat (c.toNat - 32) else c

/-- Lowercase one ASCII character, as Python str.lower acts per character. -/
def pyLowerChar (c : Char) : Char :=
  if 65 ≤ c.toNat ∧ c.toNat ≤ 90 then Char.ofNat (c.toNat + 32) else c

/-- Python str.upper for the ASCII strings handled here. -/
def pyUpper (s : String) : String := String.mk (s.data.map pyUpperChar)

/-- Python str.lower for the ASCII strings handled here. -/
def pyLower (s : String) : String := String.mk (s.data.map pyLowerChar)

/-- Python str.replace of the dash character by an underscore, as used on
    header names in the learn step. -/
def replaceDash (s : String) : String :=
  String.mk (s.data.map (fun c => if c = '-' then '_' else c))

/-- Split a character list at every comma, like Python str.split on a comma:
    the empty input yields one empty piece. -/
def splitListOnComma : List Char → List (List Char)
  | [] => [[]]
  | c :: rest =>
    if c = ',' then [] :: splitListOnComma rest
    else
      match splitListOnComma rest with
      | [] => [[c]]
      | h :: t => (c :: h) :: t

/-- Drop leading Python whitespace. -/
def pyStripLeft (l : List Char) : List Char := l.dropWhile pyIsSpace

/-- Drop trailing Python whitespace. -/
def pyStripRight (l : List Char) : List Char := (l.reverse.dropWhile pyIsSpace).reverse

/-- Trim the pieces produced by splitting on commas so the result matches the
    regex split of django.utils.cache.cc_delim_re: the whitespace adjacent to
    each comma is consumed by the match, outer whitespace of the whole string
    is kept. The flag records whether the head piece is the first piece. -/
def trimPieces : List (List Char) → Bool → List (List Char)
  | [], _ => []
  | [p], first => [if first then p else pyStripLeft p]
  | p :: q :: rest, first =>
    pyStripRight (if first then p else pyStripLeft p) :: trimPieces (q :: rest) false

/-- Modelled Django utility: cc_delim_re.split, a split on commas where the
    whitespace around each comma is removed. -/
def ccDelimSplit (s : String) : List String :=
  (trimPieces (splitListOnComma s.data) true).map String.mk

/-- The session object of a request, as far as this middleware observes it. -/
structure Session where
  accessed : Bool
  deriving DecidableEq

/-- The user object of a request, as far as this middleware observes it. -/
structure UserT where
  isAuthenticated : Bool
  deriving DecidableEq

/-- A request: method, the value of get_full_path, the META mapping, the
    optional LANGUAGE_CODE attribute, the optional session and user objects,
    and the optional _cache_update_cache attribute set by the fetch phase. -/
structure Request where
  method : String
  fullPath : String
  meta : List (String × String)
  languageCode : Option String
  session : Option Session
  user : Option UserT
  cacheUpdateCache : Option Bool
  deriving DecidableEq

/-- A response: status code, header mapping and whether it carries a callable
    render attribute (a deferred rendering response). -/
structure Response where
  statusCode : Nat
  headers : List (String × String)
  renderable : Bool
  deriving DecidableEq

/-- Case insensitive header lookup, as on a Django HttpResponse, whose header
    store is keyed by the lowercased header name. -/
def respGetHeader (resp : Response) (name : String) : Option String :=
  (resp.headers.find? (fun p => pyLower p.1 = pyLower name)).map Prod.snd

/-- Lookup in request.META: a Python dict access with default None. -/
def metaGet (meta : List (String × String)) (k : String) : Option String :=
  (meta.find? (fun p => p.1 = k)).map Prod.snd

/-- A value held by the backend: either a learned header list or a stored
    response snapshot. -/
inductive CacheVal where
  | hdrs (l : List String)
  | resp (r : Response)
  deriving DecidableEq

/-- The key value backend: entries carry key, value and the ttl they were
    stored with. cacheSet shadows older entries, giving overwrite semantics. -/
abbrev Cache := List (String × CacheVal × Int)

/-- Backend read. -/
def cacheGet (c : Cache) (k : String) : Option (CacheVal × Int) :=
  (List.find? (fun e => e.1 = k) c).map Prod.snd

/-- Backend write with a ttl. -/
def cacheSet (c : Cache) (k : String) (v : CacheVal) (t : Int) : Cache :=
  (k, v, t) :: c

/-- External pure collaborators of the middleware: the md5 hex digest,
    iri_to_uri from django.utils.encoding, and patch_response_headers from
    django.utils.cache, which consults the current time and therefore stays
    an abstract response transformer here. -/
structure ExtFns where
  md5hex : String → String
  iriToUri : String → String
  patch : Response → Int → Response

/-- Deployment settings consulted by the i18n cache key suffix: USE_I18N,
    USE_L10N, USE_TZ, the active language returned by get_language and the
    name returned by get_current_timezone_name. -/
structure I18n where
  useI18n : Bool
  useL10n : Bool
  useTz : Bool
  language : String
  tzName : String

/-- TwoPartCacheMiddlewareBase._i18n_cache_key_suffix. -/
def i18n_cache_key_suffix (i18n : I18n) (r : Request) (cache_key : String) : String :=
  let ck := if i18n.useI18n ∨ i18n.useL10n
    then cache_key ++ "." ++ (r.languageCode.getD i18n.language)
    else cache_key
  if i18n.useTz then ck ++ "." ++ i18n.tzName else ck

/-- The concatenation that the md5 context of _generate_cache_key digests: the
    values of the listed headers that are present, in header list order;
    absent headers contribute nothing. -/
def varyConcat (meta : List (String × String)) (headerlist : List String) : String :=
  headerlist.foldl (fun acc h =>
    match metaGet meta h with
    | some v => acc ++ v
    | none => acc) ""

/-- TwoPartCacheMiddlewareBase._generate_cache_key, the page key. The
    incremental md5 updates of the source equal one digest of the
    concatenation of the present header values. -/
def generate_cache_key (ext : ExtFns) (i18n : I18n) (r : Request) (method : String)
    (headerlist : List String) (keyPrefix : String) : String :=
  i18n_cache_key_suffix i18n r
    ("views.decorators.cache.cache_page." ++ keyPrefix ++ "." ++ method ++ "." ++
      ext.md5hex (ext.iriToUri r.fullPath) ++ "." ++ ext.md5hex (varyConcat r.meta headerlist))

/-- TwoPartCacheMiddlewareBase._generate_cache_header_key, the header list key. -/
def generate_cache_header_key (ext : ExtFns) (i18n : I18n) (keyPrefix : String)
    (r : Request) : String :=
  i18n_cache_key_suffix i18n r
    ("views.decorators.cache.cache_header." ++ keyPrefix ++ "." ++
      ext.md5hex (ext.iriToUri r.fullPath))

/-- TwoPartCacheMiddlewareBase.get_cache_key. The optional argument defaults of
    the source read global settings; the middleware always passes every
    argument, so they are required here. A stored response under a header key
    never occurs because the two key namespaces are disjoint. -/
def get_cache_key (ext : ExtFns) (i18n : I18n) (r : Request) (keyPrefix : String)
    (method : String) (c : Cache) : Option String :=
  match cacheGet c (generate_cache_header_key ext i18n keyPrefix r) with
  | some (CacheVal.hdrs headerlist, _) =>
    some (generate_cache_key ext i18n r method headerlist keyPrefix)
  | _ => none

/-- The canonical request header name built from one Vary token in
    learn_cache_key. -/
def canonHeader (h : String) : String := "HTTP_" ++ replaceDash (pyUpper h)

/-- The header list that learn_cache_key derives from a response. -/
def learnedHeaderlist (resp : Response) : List String :=
  match respGetHeader resp "Vary" with
  | some vary => (ccDelimSplit vary).map canonHeader
  | none => []

/-- UpdateCacheMiddleware.learn_cache_key: stores the learned header list under
    the header key with the given timeout and returns the page key computed
    with the request method. -/
def learn_cache_key (ext : ExtFns) (i18n : I18n) (r : Request) (resp : Response)
    (cache_timeout : Int) (keyPrefix : String) (c : Cache) : String × Cache :=
  let cache_key := generate_cache_header_key ext i18n keyPrefix r
  match respGetHeader resp "Vary" with
  | some vary =>
    let headerlist := (ccDelimSplit vary).map canonHeader
    (generate_cache_key ext i18n r r.method headerlist keyPrefix,
      cacheSet c cache_key (CacheVal.hdrs headerlist) cache_timeout)
  | none =>
    (generate_cache_key ext i18n r r.method [] keyPrefix,
      cacheSet c cache_key (CacheVal.hdrs []) cache_timeout)

/-- Split a character list at the first equals sign, Python str.split with
    limit one. -/
def splitOnceEq : List Char → List Char × Option (List Char)
  | [] => ([], none)
  | c :: rest =>
    if c = '=' then ([], some rest)
    else
      let r := splitOnceEq rest
      (c :: r.1, r.2)

/-- Decimal digit test. -/
def allDigits (l : List Char) : Bool :=
  l.all (fun c => decide (48 ≤ c.toNat ∧ c.toNat ≤ 57))

/-- Value of a digit list. -/
def digitsVal (l : List Char) : Nat :=
  l.foldl (fun acc c => acc * 10 + (c.toNat - 48)) 0

/-- Python int() applied to a string: optional surrounding whitespace, an
    optional sign, then at least one digit. -/
def pyParseInt (s : String) : Option Int :=
  match pyStripLeft (pyStripRight s.data) with
  | [] => none
  | c :: rest =>
    if c = '-' then
      if rest ≠ [] ∧ allDigits rest then some (-(digitsVal rest : Int)) else none
    else if c = '+' then
      if rest ≠ [] ∧ allDigits rest then some ((digitsVal rest : Int)) else none
    else
      if allDigits (c :: rest) then some ((digitsVal (c :: rest) : Int)) else none

/-- Modelled Django utility: one Cache-Control token as a key value pair with
    the key lowercased; a token without an equals sign carries the Python
    value True instead of a string. -/
def toTuple (s : String) : String × Option String :=
  let p := splitOnceEq s.data
  (pyLower (String.mk p.1), p.2.map String.mk)

/-- Python dict construction keeps the last binding of a repeated key. -/
def lookupLast (l : List (String × Option String)) (k : String) : Option (Option String) :=
  (l.reverse.find? (fun p => p.1 = k)).map Prod.snd

/-- Modelled Django utility get_max_age: parse max-age out of the Cache-Control
    header. A bare max-age token carries True, and int(True) is one in the
    Python of this era, hence the literal one below. -/
def getMaxAge (resp : Response) : Option Int :=
  match respGetHeader resp "Cache-Control" with
  | none => none
  | some cc =>
    match lookupLast ((ccDelimSplit cc).map toTuple) "max-age" with
    | none => none
    | some none => some 1
    | some (some v) => pyParseInt v

/-- Configuration of the update middleware. -/
structure UpdateCfg where
  cacheTimeout : Int
  keyPrefix : String
  cacheAnonymousOnly : Bool
  deriving DecidableEq

/-- UpdateCacheMiddleware._session_accessed: an absent session attribute reads
    as not accessed. -/
def session_accessed (r : Request) : Bool :=
  match r.session with
  | some s => s.accessed
  | none => false

/-- UpdateCacheMiddleware._should_update_cache; the assert that the request
    carries a user attribute is the error case. -/
def should_update_cache (cfg : UpdateCfg) (r : Request) : Except Unit Bool :=
  if r.cacheUpdateCache ≠ some true then Except.ok false
  else if cfg.cacheAnonymousOnly ∧ session_accessed r then
    match r.user with
    | none => Except.error ()
    | some u => if u.isAuthenticated then Except.ok false else Except.ok true
  else Except.ok true

/-- Result of process_response: the returned response, the backend state, and
    for a renderable response the deferred page store that the post render
    callback will perform, as its key and ttl. -/
structure UpdateResult where
  response : Response
  cache : Cache
  pending : Option (String × Int)

/-- UpdateCacheMiddleware.process_response. -/
def process_response (ext : ExtFns) (i18n : I18n) (cfg : UpdateCfg) (r : Request)
    (response : Response) (c : Cache) : Except Unit UpdateResult :=
  match should_update_cache cfg r with
  | Except.error e => Except.error e
  | Except.ok false => Except.ok ⟨response, c, none⟩
  | Except.ok true =>
    if response.statusCode ≠ 200 then Except.ok ⟨response, c, none⟩
    else if getMaxAge response = some 0 then Except.ok ⟨response, c, none⟩
    else
      let timeout := (getMaxAge response).getD cfg.cacheTimeout
      let response1 := ext.patch response timeout
      if timeout = 0 then Except.ok ⟨response1, c, none⟩
      else
        let kc := learn_cache_key ext i18n r response1 timeout cfg.keyPrefix c
        if response1.renderable then Except.ok ⟨response1, kc.2, some (kc.1, timeout)⟩
        else Except.ok ⟨response1, cacheSet kc.2 kc.1 (CacheVal.resp response1) timeout, none⟩

/-- FetchFromCacheMiddleware.process_request: the boolean is the value written
    to the request attribute _cache_update_cache, the optional value is what
    the middleware returns, the raw backend value on a hit. -/
def fetch_process_request (ext : ExtFns) (i18n : I18n) (keyPrefix : String)
    (r : Request) (c : Cache) : Bool × Option CacheVal :=
  if ¬ (r.method = "GET" ∨ r.method = "HEAD") then (false, none)
  else
    match get_cache_key ext i18n r keyPrefix "GET" c with
    | none => (true, none)
    | some k =>
      let response0 := (cacheGet c k).map Prod.fst
      let response1 :=
        if response0 = none ∧ r.method = "HEAD" then
          match get_cache_key ext i18n r keyPrefix "HEAD" c with
          | none => none
          | some k2 => (cacheGet c k2).map Prod.fst
        else response0
      match response1 with
      | none => (true, none)
      | some v => (false, some v)

/-- A fresh backend read after a write at the same key sees the written value. -/
theorem cacheGet_set_self (c : Cache) (k : String) (v : CacheVal) (t : Int) :
    cacheGet (cacheSet c k v t) k = some (v, t) := by
  simp [cacheGet, cacheSet]

/-- A backend read at another key is unaffected by a write. -/
theorem cacheGet_set_ne (c : Cache) (k k2 : String) (v : CacheVal) (t : Int)
    (h : k2 ≠ k) : cacheGet (cacheSet c k v t) k2 = cacheGet c k2 := by
  have h2 : ¬ (k = k2) := fun hh => h hh.symm
  simp [cacheGet, cacheSet, h2]

/-- The locale and timezone tail that _i18n_cache_key_suffix appends. -/
def i18nTail (i18n : I18n) (r : Request) : String :=
  (if i18n.useI18n ∨ i18n.useL10n then "." ++ (r.languageCode.getD i18n.language) else "") ++
    (if i18n.useTz then "." ++ i18n.tzName else "")

/-- The i18n suffix is a pure right append of the tail. -/
theorem i18n_suffix_data (i18n : I18n) (r : Request) (k : String) :
    (i18n_cache_key_suffix i18n r k).data = k.data ++ (i18nTail i18n r).data := by
  unfold i18n_cache_key_suffix i18nTail
  by_cases h1 : (i18n.useI18n ∨ i18n.useL10n : Prop) <;>
    by_cases h2 : (i18n.useTz : Prop) <;>
      simp [h1, h2, String.data_append, List.append_assoc]

/-- The tail depends on the request only through its language code attribute. -/
theorem i18nTail_congr (i18n : I18n) (r1 r2 : Request)
    (h : r1.languageCode = r2.languageCode) : i18nTail i18n r1 = i18nTail i18n r2 := by
  unfold i18nTail
  rw [h]

/-- Page key character data, fully decomposed. -/
theorem generate_cache_key_data (ext : ExtFns) (i18n : I18n) (r : Request)
    (method : String) (hl : List String) (kp : String) :
    (generate_cache_key ext i18n r method hl kp).data =
      "views.decorators.cache.cache_page.".data ++ (kp.data ++ (".".data ++ (method.data ++
        (".".data ++ ((ext.md5hex (ext.iriToUri r.fullPath)).data ++ (".".data ++
          ((ext.md5hex (varyConcat r.meta hl)).data ++ (i18nTail i18n r).data))))))) := by
  unfold generate_cache_key
  rw [i18n_suffix_data]
  simp [String.data_append, List.append_assoc]

/-- Header list key character data, fully decomposed. -/
theorem generate_cache_header_key_data (ext : ExtFns) (i18n : I18n) (kp : String)
    (r : Request) :
    (generate_cache_header_key ext i18n kp r).data =
      "views.decorators.cache.cache_header.".data ++ (kp.data ++ (".".data ++
        ((ext.md5hex (ext.iriToUri r.fullPath)).data ++ (i18nTail i18n r).data))) := by
  unfold generate_cache_header_key
  rw [i18n_suffix_data]
  simp [String.data_append, List.append_assoc]

/-- Two character lists with different thirty character prefixes stay different
    under any right extension. -/
theorem ne_append_of_take_ne (p q a b : List Char) (hp : 30 ≤ p.length)
    (hq : 30 ≤ q.length) (hne : p.take 30 ≠ q.take 30) : p ++ a ≠ q ++ b := by
  intro h
  apply hne
  have h1 : (p ++ a).take 30 = p.take 30 := List.take_append_of_le_length hp
  have h2 : (q ++ b).take 30 = q.take 30 := List.take_append_of_le_length hq
  rw [← h1, ← h2, h]

/-- The page key namespace and the header key namespace are disjoint: no page
    key ever equals a header list key, whatever the arguments. -/
theorem page_key_ne_header_key (ext : ExtFns) (i18n i18n2 : I18n) (r r2 : Request)
    (method : String) (hl : List String) (kp kp2 : String) :
    generate_cache_key ext i18n r method hl kp ≠ generate_cache_header_key ext i18n2 kp2 r2 := by
  intro h
  have hd := congrArg String.data h
  rw [generate_cache_key_data, generate_cache_header_key_data] at hd
  exact ne_append_of_take_ne _ _ _ _ (by decide) (by decide) (by decide) hd

/-- Two page keys built with the same prefix, method, path digest and language
    context but different header value digests are different strings. -/
theorem generate_cache_key_ne_of_ctx_ne (ext : ExtFns) (i18n : I18n) (r1 r2 : Request)
    (method : String) (hl1 hl2 : List String) (kp : String)
    (hpath : ext.iriToUri r1.fullPath = ext.iriToUri r2.fullPath)
    (hlang : r1.languageCode = r2.languageCode)
    (hctx : ext.md5hex (varyConcat r1.meta hl1) ≠ ext.md5hex (varyConcat r2.meta hl2)) :
    generate_cache_key ext i18n r1 method hl1 kp ≠ generate_cache_key ext i18n r2 method hl2 kp := by
  intro h
  have hd := congrArg String.data h
  rw [generate_cache_key_data, generate_cache_key_data, hpath,
    i18nTail_congr i18n r1 r2 hlang] at hd
  have hd1 := List.append_cancel_left hd
  have hd2 := List.append_cancel_left hd1
  have hd3 := List.append_cancel_left hd2
  have hd4 := List.append_cancel_left hd3
  have hd5 := List.append_cancel_left hd4
  have hd6 := List.append_cancel_left hd5
  have hd7 := List.append_cancel_left hd6
  have hd8 := List.append_cancel_right hd7
  apply hctx
  have g1 : ext.md5hex (varyConcat r1.meta hl1) = String.mk (ext.md5hex (varyConcat r1.meta hl1)).data := rfl
  have g2 : ext.md5hex (varyConcat r2.meta hl2) = String.mk (ext.md5hex (varyConcat r2.meta hl2)).data := rfl
  rw [g1, g2, hd8]

/-- Folding the header values of a list on which two META maps agree gives the
    same string from any accumulator. -/
theorem foldl_vary_congr (m1 m2 : List (String × String)) :
    ∀ (hl : List String) (acc : String),
      (∀ x ∈ hl, metaGet m1 x = metaGet m2 x) →
      hl.foldl (fun acc h => match metaGet m1 h with | some v => acc ++ v | none => acc) acc =
        hl.foldl (fun acc h => match metaGet m2 h with | some v => acc ++ v | none => acc) acc := by
  intro hl
  induction hl with
  | nil => intro acc _; rfl
  | cons x xs ih =>
    intro acc h
    simp only [List.foldl_cons]
    rw [h x (by simp)]
    exact ih _ (fun y hy => h y (by simp [hy]))

/-- The concatenation of present header values agrees between two requests that
    agree on every header of the list. -/
theorem varyConcat_congr (m1 m2 : List (String × String)) (hl : List String)
    (h : ∀ x ∈ hl, metaGet m1 x = metaGet m2 x) :
    varyConcat m1 hl = varyConcat m2 hl :=
  foldl_vary_congr m1 m2 hl "" h

/-- A header list none of whose headers is present folds to the accumulator. -/
theorem foldl_vary_all_none (m : List (String × String)) :
    ∀ (hl : List String) (acc : String),
      (∀ x ∈ hl, metaGet m x = none) →
      hl.foldl (fun acc h => match metaGet m h with | some v => acc ++ v | none => acc) acc = acc := by
  intro hl
  induction hl with
  | nil => intro acc _; rfl
  | cons x xs ih =>
    intro acc h
    simp only [List.foldl_cons]
    rw [h x (by simp)]
    exact ih _ (fun y hy => h y (by simp [hy]))

/-- Page keys agree between two requests with the same normalized path, the
    same values of every listed header and the same language attribute. -/
theorem generate_cache_key_congr (ext : ExtFns) (i18n : I18n) (r1 r2 : Request)
    (method : String) (hl : List String) (kp : String)
    (hpath : ext.iriToUri r1.fullPath = ext.iriToUri r2.fullPath)
    (hmeta : ∀ x ∈ hl, metaGet r1.meta x = metaGet r2.meta x)
    (hlang : r1.languageCode = r2.languageCode) :
    generate_cache_key ext i18n r1 method hl kp = generate_cache_key ext i18n r2 method hl kp := by
  unfold generate_cache_key i18n_cache_key_suffix
  rw [varyConcat_congr r1.meta r2.meta hl hmeta, hpath, hlang]

/-- Header list keys agree between two requests with the same normalized path
    and the same language attribute. -/
theorem generate_cache_header_key_congr (ext : ExtFns) (i18n : I18n) (kp : String)
    (r1 r2 : Request)
    (hpath : ext.iriToUri r1.fullPath = ext.iriToUri r2.fullPath)
    (hlang : r1.languageCode = r2.languageCode) :
    generate_cache_header_key ext i18n kp r1 = generate_cache_header_key ext i18n kp r2 := by
  unfold generate_cache_header_key i18n_cache_key_suffix
  rw [hpath, hlang]

/-- learn_cache_key, expressed through the learned header list. -/
theorem learn_cache_key_eq (ext : ExtFns) (i18n : I18n) (r : Request) (resp : Response)
    (t : Int) (kp : String) (c : Cache) :
    learn_cache_key ext i18n r resp t kp c =
      (generate_cache_key ext i18n r r.method (learnedHeaderlist resp) kp,
        cacheSet c (generate_cache_header_key ext i18n kp r)
          (CacheVal.hdrs (learnedHeaderlist resp)) t) := by
  unfold learn_cache_key learnedHeaderlist
  cases h : respGetHeader resp "Vary" <;> simp [h]

/-- Fetch behaviour on a GET page key hit. -/
theorem fetch_eq_of_hit (ext : ExtFns) (i18n : I18n) (kp : String) (r : Request)
    (c : Cache) (H : List String) (t tv : Int) (v : CacheVal)
    (hm : r.method = "GET" ∨ r.method = "HEAD")
    (hh : cacheGet c (generate_cache_header_key ext i18n kp r) = some (CacheVal.hdrs H, t))
    (hG : cacheGet c (generate_cache_key ext i18n r "GET" H kp) = some (v, tv)) :
    fetch_process_request ext i18n kp r c = (false, some v) := by
  unfold fetch_process_request get_cache_key
  rw [hh, if_neg (fun hn => hn hm)]
  simp [hG]

/-- Fetch behaviour of a GET request on a page key miss. -/
theorem fetch_eq_of_miss_get (ext : ExtFns) (i18n : I18n) (kp : String) (r : Request)
    (c : Cache) (H : List String) (t : Int)
    (hm : r.method = "GET")
    (hh : cacheGet c (generate_cache_header_key ext i18n kp r) = some (CacheVal.hdrs H, t))
    (hG : cacheGet c (generate_cache_key ext i18n r "GET" H kp) = none) :
    fetch_process_request ext i18n kp r c = (true, none) := by
  unfold fetch_process_request get_cache_key
  rw [hh, if_neg (fun hn => hn (Or.inl hm))]
  simp [hG, hm]

/-- Fetch behaviour of a HEAD request whose GET page key misses and whose HEAD
    page key hits. -/
theorem fetch_eq_head_fallback_hit (ext : ExtFns) (i18n : I18n) (kp : String)
    (r : Request) (c : Cache) (H : List String) (t tv : Int) (v : CacheVal)
    (hm : r.method = "HEAD")
    (hh : cacheGet c (generate_cache_header_key ext i18n kp r) = some (CacheVal.hdrs H, t))
    (hG : cacheGet c (generate_cache_key ext i18n r "GET" H kp) = none)
    (hH : cacheGet c (generate_cache_key ext i18n r "HEAD" H kp) = some (v, tv)) :
    fetch_process_request ext i18n kp r c = (false, some v) := by
  unfold fetch_process_request get_cache_key
  rw [hh, if_neg (fun hn => hn (Or.inr hm))]
  simp [hG, hm, hH]

/-- Fetch behaviour of a HEAD request when both page keys miss. -/
theorem fetch_eq_head_fallback_miss (ext : ExtFns) (i18n : I18n) (kp : String)
    (r : Request) (c : Cache) (H : List String) (t : Int)
    (hm : r.method = "HEAD")
    (hh : cacheGet c (generate_cache_header_key ext i18n kp r) = some (CacheVal.hdrs H, t))
    (hG : cacheGet c (generate_cache_key ext i18n r "GET" H kp) = none)
    (hH : cacheGet c (generate_cache_key ext i18n r "HEAD" H kp) = none) :
    fetch_process_request ext i18n kp r c = (true, none) := by
  unfold fetch_process_request get_cache_key
  rw [hh, if_neg (fun hn => hn (Or.inr hm))]
  simp [hG, hm, hH]

/-- Concrete external functions for witnesses: the identity as hash and URI
    encoder (the spec allows substituting the hash), identity patching. -/
def extW : ExtFns := ⟨fun s => s, fun s => s, fun r _ => r⟩

/-- Witness settings: no i18n, no l10n, no timezone awareness. -/
def i18nW : I18n := ⟨false, false, false, "en", "UTC"⟩

/-- Witness request A. -/
def rA : Request := ⟨"GET", "/p?q=1", [("HTTP_ACCEPT_LANGUAGE", "en"), ("HTTP_COOKIE", "x=1")], none, none, none, none⟩

/-- Witness request B: differs from rA only in a header outside the list. -/
def rB : Request := ⟨"GET", "/p?q=1", [("HTTP_ACCEPT_LANGUAGE", "en"), ("HTTP_COOKIE", "y=2")], none, none, none, none⟩

/-- C2: page key derivation is deterministic (it is a pure function, so
    re-derivation with identical inputs is definitionally identical), and two
    requests agreeing on the normalized path and query, on the values
    (including absence) of every header in the list, and on the language
    context get the identical page key for the same method, list and prefix. -/
theorem c2_page_key_stable (ext : ExtFns) (i18n : I18n) (r1 r2 : Request)
    (method : String) (hl : List String) (kp : String)
    (hpath : ext.iriToUri r1.fullPath = ext.iriToUri r2.fullPath)
    (hmeta : ∀ x ∈ hl, metaGet r1.meta x = metaGet r2.meta x)
    (hlang : r1.languageCode = r2.languageCode) :
    generate_cache_key ext i18n r1 method hl kp = generate_cache_key ext i18n r2 method hl kp :=
  generate_cache_key_congr ext i18n r1 r2 method hl kp hpath hmeta hlang

/-- C2 witness: rA and rB differ only in the Cookie header, which is not in
    the header list, and get the same page key. -/
theorem c2_page_key_stable_witness :
    generate_cache_key extW i18nW rA "GET" ["HTTP_ACCEPT_LANGUAGE"] "p" =
      generate_cache_key extW i18nW rB "GET" ["HTTP_ACCEPT_LANGUAGE"] "p" :=
  c2_page_key_stable extW i18nW rA rB "GET" ["HTTP_ACCEPT_LANGUAGE"] "p" rfl (by decide) rfl

/-- C3: the learn step stores, under the header list key and with the resolved
    ttl, exactly the Vary value split on the delimiter with each token
    canonicalized (uppercased, dashes to underscores, HTTP_ prefix), in Vary
    order; without a Vary header it stores the empty list. -/
theorem c3_learn_step (ext : ExtFns) (i18n : I18n) (r : Request) (resp : Response)
    (t : Int) (kp : String) (c : Cache) :
    (∀ v, respGetHeader resp "Vary" = some v →
      cacheGet (learn_cache_key ext i18n r resp t kp c).2
          (generate_cache_header_key ext i18n kp r) =
        some (CacheVal.hdrs ((ccDelimSplit v).map
          (fun h => "HTTP_" ++ replaceDash (pyUpper h))), t))
    ∧ (respGetHeader resp "Vary" = none →
      cacheGet (learn_cache_key ext i18n r resp t kp c).2
          (generate_cache_header_key ext i18n kp r) =
        some (CacheVal.hdrs [], t)) := by
  constructor
  · intro v hv
    unfold learn_cache_key
    rw [hv]
    simp [cacheGet_set_self, canonHeader]
  · intro hv
    unfold learn_cache_key
    rw [hv]
    simp [cacheGet_set_self]

/-- Witness response carrying a Vary header with two tokens. -/
def respVary : Response := ⟨200, [("Vary", "Accept-Encoding, Cookie")], false⟩

/-- Witness response without a Vary header. -/
def respNoVary : Response := ⟨200, [("Content-Type", "text/html")], false⟩

/-- C3 witness: the concrete canonical lists stored for a response with Vary
    Accept-Encoding, Cookie and for a response without Vary. -/
theorem c3_learn_step_witness :
    cacheGet (learn_cache_key extW i18nW rA respVary 60 "p" []).2
        (generate_cache_header_key extW i18nW "p" rA) =
      some (CacheVal.hdrs ["HTTP_ACCEPT_ENCODING", "HTTP_COOKIE"], 60)
    ∧ cacheGet (learn_cache_key extW i18nW rA respNoVary 60 "p" []).2
        (generate_cache_header_key extW i18nW "p" rA) =
      some (CacheVal.hdrs [], 60) := by
  constructor
  · have h := (c3_learn_step extW i18nW rA respVary 60 "p" []).1 "Accept-Encoding, Cookie" rfl
    revert h
    decide
  · exact (c3_learn_step extW i18nW rA respNoVary 60 "p" []).2 rfl

/-- C6: a request whose method is neither GET nor HEAD gets the update flag
    false and a none result, for every backend state, so no backend read can
    influence the outcome. -/
theorem c6_unsafe_method (ext : ExtFns) (i18n : I18n) (kp : String) (r : Request)
    (hg : r.method ≠ "GET") (hh : r.method ≠ "HEAD") :
    ∀ c : Cache, fetch_process_request ext i18n kp r c = (false, none) := by
  intro c
  have hcond : ¬ (r.method = "GET" ∨ r.method = "HEAD") := fun hor => hor.elim hg hh
  unfold fetch_process_request
  rw [if_pos hcond]

/-- Witness POST request. -/
def rPost : Request := ⟨"POST", "/a", [], none, none, none, none⟩

/-- C6 witness: the POST outcome is the same on an empty backend and on a
    backend holding entries for that very path. -/
theorem c6_unsafe_method_witness :
    fetch_process_request extW i18nW "p" rPost [] = (false, none)
    ∧ fetch_process_request extW i18nW "p" rPost
        (cacheSet [] (generate_cache_header_key extW i18nW "p" rPost) (CacheVal.hdrs []) 60) =
      (false, none) :=
  ⟨c6_unsafe_method extW i18nW "p" rPost (by decide) (by decide) [],
   c6_unsafe_method extW i18nW "p" rPost (by decide) (by decide) _⟩

/-- C7: for a GET or HEAD request whose header list key is present, fetch
    first consults the page key computed with method GET; exactly when that
    misses and the method is HEAD it consults the HEAD page key; when every
    consulted key misses it flags the request for update and returns none. -/
theorem c7_fetch_order (ext : ExtFns) (i18n : I18n) (kp : String) (r : Request)
    (c : Cache) (H : List String) (t : Int)
    (hm : r.method = "GET" ∨ r.method = "HEAD")
    (hh : cacheGet c (generate_cache_header_key ext i18n kp r) = some (CacheVal.hdrs H, t)) :
    (∀ v tv, cacheGet c (generate_cache_key ext i18n r "GET" H kp) = some (v, tv) →
        fetch_process_request ext i18n kp r c = (false, some v))
    ∧ (cacheGet c (generate_cache_key ext i18n r "GET" H kp) = none → r.method = "HEAD" →
        (∀ v tv, cacheGet c (generate_cache_key ext i18n r "HEAD" H kp) = some (v, tv) →
            fetch_process_request ext i18n kp r c = (false, some v))
        ∧ (cacheGet c (generate_cache_key ext i18n r "HEAD" H kp) = none →
            fetch_process_request ext i18n kp r c = (true, none)))
    ∧ (cacheGet c (generate_cache_key ext i18n r "GET" H kp) = none → r.method = "GET" →
        fetch_process_request ext i18n kp r c = (true, none)) :=
  ⟨fun v tv hG => fetch_eq_of_hit ext i18n kp r c H t tv v hm hh hG,
   fun hG hhead =>
     ⟨fun v tv hH => fetch_eq_head_fallback_hit ext i18n kp r c H t tv v hhead hh hG hH,
      fun hH => fetch_eq_head_fallback_miss ext i18n kp r c H t hhead hh hG hH⟩,
   fun hG hget => fetch_eq_of_miss_get ext i18n kp r c H t hget hh hG⟩

/-- Witness HEAD request. -/
def rHead : Request := ⟨"HEAD", "/x", [("HTTP_A", "a")], none, none, none, none⟩

/-- A stored response for the C7 witness. -/
def respStored : Response := ⟨200, [("Content-Type", "text/plain")], false⟩

/-- Witness backend: header list present, only the HEAD page key stored. -/
def cHead : Cache :=
  cacheSet (cacheSet [] (generate_cache_header_key extW i18nW "p" rHead) (CacheVal.hdrs ["HTTP_A"]) 9)
    (generate_cache_key extW i18nW rHead "HEAD" ["HTTP_A"] "p") (CacheVal.resp respStored) 9

/-- C7 witness: a HEAD request misses the GET page key and hits its HEAD
    fallback key. -/
theorem c7_fetch_order_witness :
    fetch_process_request extW i18nW "p" rHead cHead = (false, some (CacheVal.resp respStored)) :=
  ((c7_fetch_order extW i18nW "p" rHead cHead ["HTTP_A"] 9 (Or.inr rfl) (by decide)).2.1
    (by decide) rfl).1 (CacheVal.resp respStored) 9 (by decide)

/-- C10: within one request, the page key depends on the header list only
    through the concatenation of the present header values; in particular a
    request carrying none of the listed headers gets the page key of the
    empty header list. -/
theorem c10_concat_determines_key (ext : ExtFns) (i18n : I18n) (r : Request)
    (method kp : String) :
    (∀ hl1 hl2 : List String, varyConcat r.meta hl1 = varyConcat r.meta hl2 →
        generate_cache_key ext i18n r method hl1 kp = generate_cache_key ext i18n r method hl2 kp)
    ∧ (∀ hl : List String, (∀ x ∈ hl, metaGet r.meta x = none) →
        generate_cache_key ext i18n r method hl kp = generate_cache_key ext i18n r method [] kp) := by
  constructor
  · intro hl1 hl2 h
    unfold generate_cache_key
    rw [h]
  · intro hl h
    have hc : varyConcat r.meta hl = varyConcat r.meta [] :=
      foldl_vary_all_none r.meta hl "" h
    unfold generate_cache_key
    rw [hc]

/-- Witness request for C10 with header values whose concatenations collide. -/
def rC10 : Request := ⟨"GET", "/c", [("HTTP_A", "x"), ("HTTP_B", "y"), ("HTTP_AB", "xy")], none, none, none, none⟩

/-- C10 witness: the lists HTTP_A, HTTP_B and HTTP_AB concatenate to the same
    value string and give the same page key, and a list of absent headers
    gives the page key of the empty list. -/
theorem c10_concat_determines_key_witness :
    generate_cache_key extW i18nW rC10 "GET" ["HTTP_A", "HTTP_B"] "p" =
      generate_cache_key extW i18nW rC10 "GET" ["HTTP_AB"] "p"
    ∧ generate_cache_key extW i18nW rC10 "GET" ["HTTP_NONE"] "p" =
      generate_cache_key extW i18nW rC10 "GET" [] "p" :=
  ⟨(c10_concat_determines_key extW i18nW rC10 "GET" "p").1 _ _ (by decide),
   (c10_concat_determines_key extW i18nW rC10 "GET" "p").2 _ (by decide)⟩

/-- C4: when the update flag is set, the configuration assert does not fire,
    the status is 200 and Cache-Control resolves max-age to zero, the update
    phase returns the response unchanged and writes nothing, whatever the
    configured default ttl. -/
theorem c4_max_age_zero (ext : ExtFns) (i18n : I18n) (cfg : UpdateCfg) (r : Request)
    (resp : Response) (c : Cache)
    (hst : r.cacheUpdateCache = some true)
    (hne : should_update_cache cfg r ≠ Except.error ())
    (h200 : resp.statusCode = 200)
    (hma : getMaxAge resp = some 0) :
    process_response ext i18n cfg r resp c = Except.ok ⟨resp, c, none⟩ := by
  unfold process_response
  cases hsu : should_update_cache cfg r with
  | error e => cases e; exact absurd hsu hne
  | ok b =>
    cases b
    · rfl
    · simp [h200, hma]

/-- Witness configuration: nonzero default ttl, no anonymous policy. -/
def cfgW : UpdateCfg := ⟨300, "p", false⟩

/-- Witness response carrying max-age zero. -/
def respMA0 : Response := ⟨200, [("Cache-Control", "max-age=0")], false⟩

/-- Witness request flagged for update. -/
def rStore : Request := ⟨"GET", "/a", [], none, none, none, some true⟩

/-- C4 witness: with default ttl 300 a max-age zero response is returned
    unchanged and the backend stays empty. -/
theorem c4_max_age_zero_witness :
    process_response extW i18nW cfgW rStore respMA0 [] = Except.ok ⟨respMA0, [], none⟩ :=
  c4_max_age_zero extW i18nW cfgW rStore respMA0 [] rfl (fun h => nomatch h) rfl (by decide)

/-- Anonymous only configuration for C9. -/
def cfgAnon : UpdateCfg := ⟨60, "p", true⟩

/-- Request with neither a session nor a user attribute, flagged for update. -/
def rNoIdent : Request := ⟨"GET", "/a", [], none, none, none, some true⟩

/-- C9 counterexample: the anonymous only policy is configured, the request
    exposes no authenticated identity attribute, yet no error is raised: the
    update check passes, because the session was never accessed and the assert
    is therefore skipped. -/
theorem c9_counterexample :
    cfgAnon.cacheAnonymousOnly = true
    ∧ rNoIdent.user = none
    ∧ should_update_cache cfgAnon rNoIdent = Except.ok true :=
  ⟨rfl, rfl, rfl⟩

/-- C9 (amended): the fatal error fires exactly in the accessed-session case:
    when the anonymous only policy is configured, the session was accessed
    during the request, the update flag is set and the request exposes no
    identity attribute, the update phase raises; with an unaccessed or absent
    session the check is skipped. -/
theorem c9_assert_no_identity (ext : ExtFns) (i18n : I18n) (cfg : UpdateCfg)
    (r : Request) (resp : Response) (c : Cache)
    (ha : cfg.cacheAnonymousOnly = true)
    (hs : session_accessed r = true)
    (hu : r.user = none)
    (hc : r.cacheUpdateCache = some true) :
    process_response ext i18n cfg r resp c = Except.error () := by
  unfold process_response should_update_cache
  simp [ha, hs, hu, hc]

/-- Request whose session was accessed but which has no user attribute. -/
def rSessAcc : Request := ⟨"GET", "/a", [], none, some ⟨true⟩, none, some true⟩

/-- Plain cacheable response with no Cache-Control and no Vary. -/
def respPlain : Response := ⟨200, [("Content-Type", "text/html")], false⟩

/-- C9 witness: the amended error case at concrete inputs. -/
theorem c9_assert_no_identity_witness :
    process_response extW i18nW cfgAnon rSessAcc respPlain [] = Except.error () :=
  c9_assert_no_identity extW i18nW cfgAnon rSessAcc respPlain [] rfl rfl rfl rfl

/-- Zero default ttl configuration for the C5 counterexample. -/
def cfgZero : UpdateCfg := ⟨0, "p", false⟩

/-- C5 counterexample: the update flag is set, the status is 200, Cache-Control
    carries no max-age, so the ttl resolves to the configured default zero; the
    claim demands both entries be written with that resolved ttl, but the code
    skips the store entirely and the backend stays empty. -/
theorem c5_counterexample :
    should_update_cache cfgZero rStore = Except.ok true
    ∧ respPlain.statusCode = 200
    ∧ getMaxAge respPlain = none
    ∧ process_response extW i18nW cfgZero rStore respPlain [] =
        Except.ok ⟨respPlain, [], none⟩ :=
  ⟨rfl, rfl, rfl, rfl⟩

/-- The ttl process_response resolves: max-age when parseable, otherwise the
    configured default. -/
def resolvedTimeout (cfg : UpdateCfg) (resp : Response) : Int :=
  (getMaxAge resp).getD cfg.cacheTimeout

/-- C5 (amended): when the update check passes, the status is 200, max-age is
    not zero and the resolved ttl is nonzero, the update phase patches the
    response and writes the learned header list and, for an already finalized
    response, the response under the page key, both with the resolved ttl; for
    a deferred rendering response the page store is registered as the pending
    post render callback instead. With a resolved ttl of zero (the default ttl
    being zero) nothing is stored. -/
theorem c5_store_nonzero_ttl (ext : ExtFns) (i18n : I18n) (cfg : UpdateCfg) (r : Request)
    (resp : Response) (c : Cache)
    (hsu : should_update_cache cfg r = Except.ok true)
    (h200 : resp.statusCode = 200)
    (hma : getMaxAge resp ≠ some 0)
    (ht : resolvedTimeout cfg resp ≠ 0) :
    process_response ext i18n cfg r resp c =
      Except.ok ⟨ext.patch resp (resolvedTimeout cfg resp),
        (if (ext.patch resp (resolvedTimeout cfg resp)).renderable then
          cacheSet c (generate_cache_header_key ext i18n cfg.keyPrefix r)
            (CacheVal.hdrs (learnedHeaderlist (ext.patch resp (resolvedTimeout cfg resp))))
            (resolvedTimeout cfg resp)
        else
          cacheSet
            (cacheSet c (generate_cache_header_key ext i18n cfg.keyPrefix r)
              (CacheVal.hdrs (learnedHeaderlist (ext.patch resp (resolvedTimeout cfg resp))))
              (resolvedTimeout cfg resp))
            (generate_cache_key ext i18n r r.method
              (learnedHeaderlist (ext.patch resp (resolvedTimeout cfg resp))) cfg.keyPrefix)
            (CacheVal.resp (ext.patch resp (resolvedTimeout cfg resp)))
            (resolvedTimeout cfg resp)),
        (if (ext.patch resp (resolvedTimeout cfg resp)).renderable then
          some (generate_cache_key ext i18n r r.method
            (learnedHeaderlist (ext.patch resp (resolvedTimeout cfg resp))) cfg.keyPrefix,
            resolvedTimeout cfg resp)
        else none)⟩ := by
  unfold process_response
  rw [hsu]
  rw [if_neg (by simp [h200])]
  rw [if_neg hma]
  rw [show (getMaxAge resp).getD cfg.cacheTimeout = resolvedTimeout cfg resp from rfl,
    if_neg ht, learn_cache_key_eq]
  by_cases hr : (ext.patch resp (resolvedTimeout cfg resp)).renderable <;> simp [hr]

/-- C5 witness: with default ttl 300 and no max-age the plain finalized
    response is stored together with the empty learned header list, both with
    ttl 300, and nothing is deferred. -/
theorem c5_store_nonzero_ttl_witness :
    process_response extW i18nW cfgW rStore respPlain [] =
      Except.ok ⟨extW.patch respPlain (resolvedTimeout cfgW respPlain),
        (if (extW.patch respPlain (resolvedTimeout cfgW respPlain)).renderable then
          cacheSet [] (generate_cache_header_key extW i18nW "p" rStore)
            (CacheVal.hdrs (learnedHeaderlist (extW.patch respPlain (resolvedTimeout cfgW respPlain))))
            (resolvedTimeout cfgW respPlain)
        else
          cacheSet
            (cacheSet [] (generate_cache_header_key extW i18nW "p" rStore)
              (CacheVal.hdrs (learnedHeaderlist (extW.patch respPlain (resolvedTimeout cfgW respPlain))))
              (resolvedTimeout cfgW respPlain))
            (generate_cache_key extW i18nW rStore rStore.method
              (learnedHeaderlist (extW.patch respPlain (resolvedTimeout cfgW respPlain))) "p")
            (CacheVal.resp (extW.patch respPlain (resolvedTimeout cfgW respPlain)))
            (resolvedTimeout cfgW respPlain)),
        (if (extW.patch respPlain (resolvedTimeout cfgW respPlain)).renderable then
          some (generate_cache_key extW i18nW rStore rStore.method
            (learnedHeaderlist (extW.patch respPlain (resolvedTimeout cfgW respPlain))) "p",
            resolvedTimeout cfgW respPlain)
        else none)⟩ :=
  c5_store_nonzero_ttl extW i18nW cfgW rStore respPlain [] rfl rfl (by decide) (by decide)

/-- Response for the C1 counterexample, varying on headers A and B. -/
def respC1 : Response := ⟨200, [("Vary", "A, B")], false⟩

/-- Learning request: header A carries ab, header B carries c. -/
def rC1a : Request := ⟨"GET", "/cx", [("HTTP_A", "ab"), ("HTTP_B", "c")], none, none, none, some true⟩

/-- Probing request: differs from rC1a in the value of both listed headers,
    but the concatenation of the values is unchanged. -/
def rC1b : Request := ⟨"GET", "/cx", [("HTTP_A", "a"), ("HTTP_B", "bc")], none, none, none, some true⟩

/-- Backend state after the learn and store steps for rC1a. -/
def stC1 : String × Cache := learn_cache_key extW i18nW rC1a respC1 60 "p" []

/-- Backend with the learned header list and the page entry of rC1a. -/
def cC1 : Cache := cacheSet stC1.2 stC1.1 (CacheVal.resp respC1) 60

/-- C1 counterexample: rC1b differs from rC1a in the value of a header that is
    in the learned list H, yet it computes the SAME page key and the fetch
    phase HITS, because the key digests only the separator free concatenation
    of the header values; the claimed miss does not happen. -/
theorem c1_counterexample :
    metaGet rC1b.meta "HTTP_A" ≠ metaGet rC1a.meta "HTTP_A"
    ∧ "HTTP_A" ∈ learnedHeaderlist respC1
    ∧ generate_cache_key extW i18nW rC1b "GET" (learnedHeaderlist respC1) "p" = stC1.1
    ∧ fetch_process_request extW i18nW "p" rC1b cC1 = (false, some (CacheVal.resp respC1)) := by
  decide

/-- C1 (amended): store a response for r1 (a GET) in an empty backend by the
    learn and store steps; a fetch for r2, identical except in headers outside
    the learned list H, computes the same page key and hits; a fetch for r3,
    identical except that the digest of its concatenated H values differs
    (which forces a changed value of some header in H and excludes both
    concatenation collisions and hash collisions), computes a different page
    key and misses. -/
theorem c1_round_trip (ext : ExtFns) (i18n : I18n) (kp : String)
    (r1 r2 r3 : Request) (resp : Response) (t : Int)
    (hm1 : r1.method = "GET") (hm2 : r2.method = "GET") (hm3 : r3.method = "GET")
    (hp2 : r2.fullPath = r1.fullPath) (hp3 : r3.fullPath = r1.fullPath)
    (hla2 : r2.languageCode = r1.languageCode) (hla3 : r3.languageCode = r1.languageCode)
    (hagree : ∀ x ∈ learnedHeaderlist resp, metaGet r2.meta x = metaGet r1.meta x)
    (hhash : ext.md5hex (varyConcat r3.meta (learnedHeaderlist resp)) ≠
        ext.md5hex (varyConcat r1.meta (learnedHeaderlist resp))) :
    (generate_cache_key ext i18n r2 "GET" (learnedHeaderlist resp) kp =
        (learn_cache_key ext i18n r1 resp t kp []).1
      ∧ fetch_process_request ext i18n kp r2
          (cacheSet (learn_cache_key ext i18n r1 resp t kp []).2
            (learn_cache_key ext i18n r1 resp t kp []).1 (CacheVal.resp resp) t) =
        (false, some (CacheVal.resp resp)))
    ∧ (generate_cache_key ext i18n r3 "GET" (learnedHeaderlist resp) kp ≠
        (learn_cache_key ext i18n r1 resp t kp []).1
      ∧ fetch_process_request ext i18n kp r3
          (cacheSet (learn_cache_key ext i18n r1 resp t kp []).2
            (learn_cache_key ext i18n r1 resp t kp []).1 (CacheVal.resp resp) t) =
        (true, none)) := by
  have hpe2 : ext.iriToUri r2.fullPath = ext.iriToUri r1.fullPath := by rw [hp2]
  have hpe3 : ext.iriToUri r3.fullPath = ext.iriToUri r1.fullPath := by rw [hp3]
  have hK2 := generate_cache_key_congr ext i18n r2 r1 "GET" (learnedHeaderlist resp) kp
    hpe2 hagree hla2
  have hK3 := generate_cache_key_ne_of_ctx_ne ext i18n r3 r1 "GET" (learnedHeaderlist resp)
    (learnedHeaderlist resp) kp hpe3 hla3 hhash
  have hhk2 := generate_cache_header_key_congr ext i18n kp r2 r1 hpe2 hla2
  have hhk3 := generate_cache_header_key_congr ext i18n kp r3 r1 hpe3 hla3
  have hne1 : generate_cache_header_key ext i18n kp r1 ≠
      generate_cache_key ext i18n r1 "GET" (learnedHeaderlist resp) kp :=
    Ne.symm (page_key_ne_header_key ext i18n i18n r1 r1 "GET" (learnedHeaderlist resp) kp kp)
  have hne3 : generate_cache_key ext i18n r3 "GET" (learnedHeaderlist resp) kp ≠
      generate_cache_header_key ext i18n kp r1 :=
    page_key_ne_header_key ext i18n i18n r3 r1 "GET" (learnedHeaderlist resp) kp kp
  have hgetH : cacheGet
      (cacheSet (cacheSet [] (generate_cache_header_key ext i18n kp r1)
          (CacheVal.hdrs (learnedHeaderlist resp)) t)
        (generate_cache_key ext i18n r1 "GET" (learnedHeaderlist resp) kp)
        (CacheVal.resp resp) t)
      (generate_cache_header_key ext i18n kp r1) =
      some (CacheVal.hdrs (learnedHeaderlist resp), t) := by
    rw [cacheGet_set_ne _ _ _ _ _ hne1, cacheGet_set_self]
  rw [learn_cache_key_eq]
  dsimp only
  rw [hm1]
  refine ⟨⟨hK2, ?_⟩, hK3, ?_⟩
  · exact fetch_eq_of_hit ext i18n kp r2 _ (learnedHeaderlist resp) t t (CacheVal.resp resp)
      (Or.inl hm2) (by rw [hhk2]; exact hgetH) (by rw [hK2]; exact cacheGet_set_self _ _ _ _)
  · exact fetch_eq_of_miss_get ext i18n kp r3 _ (learnedHeaderlist resp) t hm3
      (by rw [hhk3]; exact hgetH)
      (by rw [cacheGet_set_ne _ _ _ _ _ hK3, cacheGet_set_ne _ _ _ _ _ hne3]; rfl)

/-- Witness response for the amended round trip, varying on X-Thing. -/
def respC1W : Response := ⟨200, [("Vary", "X-Thing")], false⟩

/-- Witness learning request. -/
def rC1base : Request := ⟨"GET", "/w", [("HTTP_X_THING", "a")], none, none, none, some true⟩

/-- Witness hit request: extra header outside the learned list. -/
def rC1hit : Request := ⟨"GET", "/w", [("HTTP_X_THING", "a"), ("HTTP_OTHER", "z")], none, none, none, none⟩

/-- Witness miss request: different value of the learned header. -/
def rC1miss : Request := ⟨"GET", "/w", [("HTTP_X_THING", "b")], none, none, none, none⟩

/-- C1 witness: the amended round trip at concrete inputs. -/
theorem c1_round_trip_witness :
    (generate_cache_key extW i18nW rC1hit "GET" (learnedHeaderlist respC1W) "p" =
        (learn_cache_key extW i18nW rC1base respC1W 60 "p" []).1
      ∧ fetch_process_request extW i18nW "p" rC1hit
          (cacheSet (learn_cache_key extW i18nW rC1base respC1W 60 "p" []).2
            (learn_cache_key extW i18nW rC1base respC1W 60 "p" []).1 (CacheVal.resp respC1W) 60) =
        (false, some (CacheVal.resp respC1W)))
    ∧ (generate_cache_key extW i18nW rC1miss "GET" (learnedHeaderlist respC1W) "p" ≠
        (learn_cache_key extW i18nW rC1base respC1W 60 "p" []).1
      ∧ fetch_process_request extW i18nW "p" rC1miss
          (cacheSet (learn_cache_key extW i18nW rC1base respC1W 60 "p" []).2
            (learn_cache_key extW i18nW rC1base respC1W 60 "p" []).1 (CacheVal.resp respC1W) 60) =
        (true, none)) :=
  c1_round_trip extW i18nW "p" rC1base rC1hit rC1miss respC1W 60
    rfl rfl rfl rfl rfl rfl rfl (by decide) (by decide)
